import Mathlib

/-!
Verification of the natural-language specification of the Cypress
`ProjectBase` lifecycle orchestrator (`packages/server/lib/project-base.ts`)
against a shallow embedding of its code.

JavaScript objects that only carry string-valued fields are embedded as
association lists with `_.extend`-style assignment semantics; JS truthiness
of optional strings and numbers is made explicit; rejected promises and
thrown errors are embedded as `Except`; external collaborators
(plugin host, session server, remote API, filesystem) are passed in as
explicit parameters or recorded as effect events in a trace.
-/

set_option maxRecDepth 2048

/-! ## JavaScript truthiness helpers -/

/-- Truthiness of an optional string field: `undefined` and `""` are falsy. -/
def jsTruthyStr : Option String → Bool
  | none => false
  | some s => !(s == "")

/-- Truthiness of an optional numeric field: `undefined` and `0` are falsy. -/
def jsTruthyNum : Option Nat → Bool
  | none => false
  | some n => decide (n ≠ 0)

/-! ## JS objects as association lists (for the static status helpers)

`_.extend(target, src, ...)` assigns the own properties of each source onto
the target in order, later sources overwriting earlier keys. -/

/-- A JS object whose fields are strings. -/
abbrev JsObj := List (String × String)

/-- Property read: the value stored under key `k`, if any. -/
def objGet (o : JsObj) (k : String) : Option String :=
  (o.find? (fun kv => kv.1 == k)).map (fun kv => kv.2)

/-- Property assignment: overwrite an existing key or append a new one. -/
def objSet (o : JsObj) (k v : String) : JsObj :=
  if (o.find? (fun kv => kv.1 == k)).isSome then
    o.map (fun kv => if kv.1 == k then (k, v) else kv)
  else
    o ++ [(k, v)]

/-- `_.extend(target, src)`: assign every field of `src` onto `target`. -/
def objAssign (target : JsObj) : JsObj → JsObj
  | [] => target
  | kv :: rest => objAssign (objSet target kv.1 kv.2) rest

/-! ## Static project-status reconciliation helpers

Embedding of `ProjectBase._mergeDetails`, `_mergeState`, `_getProject`,
`getProjectStatuses` and `getProjectStatus`.  The remote API client is the
external collaborator `api.getProject`; it is passed in as a function from
a project id to either a remote record or an error carrying an optional
HTTP status code.  Each per-project result is paired with the list of ids
for which an individual `api.getProject` lookup was performed, so that
"no network call" is a provable statement. -/

/-- An error raised by the remote API client; `statusCode` is `none` for a
transport error that carries no HTTP status. -/
structure ApiError where
  statusCode : Option Nat
deriving DecidableEq, Repr

/-- `ProjectBase._mergeDetails`: `_.extend({}, clientProject, project, { state: 'VALID' })`. -/
def _mergeDetails (clientProject project : JsObj) : JsObj :=
  objAssign (objAssign (objAssign [] clientProject) project) [("state", "VALID")]

/-- `ProjectBase._mergeState`: `_.extend({}, clientProject, { state })`. -/
def _mergeState (clientProject : JsObj) (state : String) : JsObj :=
  objAssign (objAssign [] clientProject) [("state", state)]

/-- `ProjectBase._getProject`: individual `api.getProject` lookup; 404 maps to
INVALID, 403 to UNAUTHORIZED, anything else is re-thrown.  The second
component records the id that was looked up remotely. -/
def _getProject (api : String → Except ApiError JsObj) (clientProject : JsObj) :
    Except ApiError JsObj × List String :=
  let i := (objGet clientProject "id").getD ""
  match api i with
  | Except.ok project => (Except.ok (_mergeDetails clientProject project), [i])
  | Except.error err =>
    match err.statusCode with
    | some 404 => (Except.ok (_mergeState clientProject "INVALID"), [i])
    | some 403 => (Except.ok (_mergeState clientProject "UNAUTHORIZED"), [i])
    | _ => (Except.error err, [i])

/-- `_.keyBy(projects, 'id')` followed by an index lookup: the last record
with the given id wins, as later assignments overwrite earlier keys. -/
def keyById (projects : List JsObj) (i : String) : Option JsObj :=
  (projects.filter (fun p => objGet p "id" == some i)).getLast?

/-- The per-project body of the `_.map` inside `getProjectStatuses`:
no id means VALID with no lookup; an id found in the remote listing is
merged; otherwise an individual `_getProject` lookup runs. -/
def statusOne (projectsIndex : String → Option JsObj)
    (api : String → Except ApiError JsObj) (clientProject : JsObj) :
    Except ApiError JsObj × List String :=
  if !(jsTruthyStr (objGet clientProject "id")) then
    (Except.ok (_mergeState clientProject "VALID"), [])
  else
    match projectsIndex ((objGet clientProject "id").getD "") with
    | some project => (Except.ok (_mergeDetails clientProject project), [])
    | none => _getProject api clientProject

/-- `ProjectBase.getProjectStatuses`: fetch the remote listing (passed in as
`projects`), index it by id, and reconcile every client project.  The
per-project promises of the JS `Promise.all` are kept as per-project
results here; lookups are isolated per project. -/
def getProjectStatuses (projects : List JsObj)
    (api : String → Except ApiError JsObj) (clientProjects : List JsObj) :
    List (Except ApiError JsObj × List String) :=
  clientProjects.map (statusOne (keyById projects) api)

/-- `ProjectBase.getProjectStatus` (single project): no id resolves VALID
without fetching a token or performing a lookup; otherwise `_getProject`. -/
def getProjectStatus (api : String → Except ApiError JsObj) (clientProject : JsObj) :
    Except ApiError JsObj × List String :=
  if !(jsTruthyStr (objGet clientProject "id")) then
    (Except.ok (_mergeState clientProject "VALID"), [])
  else
    _getProject api clientProject

/-! ## Persisted state (`savedState` store)

The durable per-project blob: `firstOpened`, `lastOpened` timestamps and the
new-project banner flag.  `state.set(changes)` merges the given fields into
the blob, leaving absent fields untouched. -/

/-- The persisted saved-state blob. -/
structure SavedState where
  firstOpened : Option Nat
  lastOpened : Option Nat
  showedNewProjectBanner : Option Bool
deriving DecidableEq, Repr

/-- A partial update handed to `state.set` / `saveState`. -/
structure StateChanges where
  firstOpened : Option Nat := none
  lastOpened : Option Nat := none
  showedNewProjectBanner : Option Bool := none
deriving DecidableEq, Repr

/-- An empty store: the state of a project never opened before. -/
def emptyState : SavedState :=
  { firstOpened := none, lastOpened := none, showedNewProjectBanner := none }

/-- `state.set(stateChanges)`: merge the present fields of the change set
into the blob. -/
def applyChanges (s : SavedState) (c : StateChanges) : SavedState :=
  { firstOpened := match c.firstOpened with | some v => some v | none => s.firstOpened
    lastOpened := match c.lastOpened with | some v => some v | none => s.lastOpened
    showedNewProjectBanner :=
      match c.showedNewProjectBanner with | some v => some v | none => s.showedNewProjectBanner }

/-! ## Config snapshot and instance state -/

/-- The raw `cypress.json` values kept on the snapshot as `cfg.rawJson`. -/
structure RawJson where
  viewportHeight : Option Nat
  viewportWidth : Option Nat
deriving DecidableEq, Repr

/-- The merged config snapshot (the fields the orchestrator itself reads). -/
structure Cfg where
  browserUrl : String
  proxyUrl : String
  proxyServer : String
  port : Option Nat
  state : Option SavedState
  isTextTerminal : Bool
  experimentalInteractiveRunEvents : Bool
  rawJson : RawJson
  viewportHeight : Option Nat
  viewportWidth : Option Nat
  pluginsFile : Option String
  supportFile : Option String
  integrationFolder : String
  componentFolder : String
  projectRoot : String
deriving DecidableEq, Repr

/-- `projectType`: end-to-end or component testing. -/
inductive ProjectType where
  | e2e
  | ct
deriving DecidableEq, Repr

/-- The data-carrying subset of the options passed to `open()`
(the callback options are external behaviour and are elided). -/
structure OpenOptions where
  report : Bool := false
  onSettingsChanged : Bool := false
  isTextTerminal : Bool := false
  testingType : String := "e2e"
deriving DecidableEq, Repr

/-- The mutable instance state of a `ProjectBase`. -/
structure PB where
  projectRoot : String
  projectType : ProjectType
  options : Option OpenOptions
  _cfg : Option Cfg
  _server : Option Unit
  _automation : Option Unit
  spec : Option String
  browser : Option String
deriving DecidableEq, Repr

/-- The constructor's field initialisation (`path.resolve` on the root is an
external filesystem concern and is elided). -/
def freshPB (projectRoot : String) (projectType : ProjectType) : PB :=
  { projectRoot := projectRoot
    projectType := projectType
    options := none
    _cfg := none
    _server := none
    _automation := none
    spec := none
    browser := none }

/-- The constructor's validation: a missing project root throws synchronously. -/
def mkProjectBase (projectRoot : String) (projectType : ProjectType) : Except String PB :=
  if projectRoot = "" then
    Except.error "Instantiating lib/project requires a projectRoot!"
  else
    Except.ok (freshPB projectRoot projectType)

/-- Modelled from the spec: `ensureProp` of `util/class-helpers` is not under
src/; the spec (design notes) describes these accessors as lazy
ensure-or-throw accessors that implicitly assert the state machine is Open,
so an unset backing field throws. -/
def ensurePropM (prop : Option α) (backupMethod : String) : Except String α :=
  match prop with
  | some v => Except.ok v
  | none => Except.error (backupMethod ++ "() must first be called")

/-- Observable external effects of the lifecycle operations. -/
inductive Eff where
  | serverClose
  | watchersClose
  | preprocessorClose
  | chdirBack
  | afterRun
  | resolveConfig
  | scaffoldCheck
  | loadSavedState
  | automationReset
  | serverReset
  | removeIntegration
deriving DecidableEq, Repr

/-! ## Config access and testing-type defaults -/

/-- `ProjectBase.injectCtSpecificConfig`: for component testing the viewport
falls back to 500×500 when the raw JSON leaves it unset (`??` only treats
null/undefined as absent). -/
def injectCtSpecificConfig (cfg : Cfg) : Cfg :=
  { cfg with
    viewportHeight := some (cfg.rawJson.viewportHeight.getD 500)
    viewportWidth := some (cfg.rawJson.viewportWidth.getD 500) }

/-- The config transformation inside `ProjectBase.onOpen`: e2e keeps the
snapshot, component testing injects the CT-specific defaults. -/
def onOpenCfg (projectType : ProjectType) (cfg : Cfg) : Cfg :=
  if projectType = ProjectType.e2e then cfg else injectCtSpecificConfig cfg

/-- `ProjectBase.getConfig`: a stored snapshot is returned as-is with no new
work; otherwise config resolution, the new-project scaffold check (skipped in
run mode) and the saved-state load run (external collaborators; their merged
outcome is the `resolved` parameter and the persisted blob `persisted`). -/
def getConfigPB (p : PB) (options : Option OpenOptions) (resolved : Cfg)
    (persisted : SavedState) : Cfg × List Eff :=
  -- if (options == null) options = this.options
  let _opts := match options with | none => p.options | some o => some o
  match p._cfg with
  | some c => (c, [])
  | none =>
    ({ resolved with state := some persisted },
      Eff.resolveConfig ::
        ((if resolved.isTextTerminal then [] else [Eff.scaffoldCheck]) ++
          [Eff.loadSavedState]))

/-! ## Lifecycle operations -/

/-- `ProjectBase.open` (happy path).  External collaborators are elided or
parameterised: the resolved config is `resolvedCfg`, the port assigned by the
session server is `serverPort`, `Date.now()` is `now`, and the persisted
store content is `persisted`.  Plugin overrides, scaffolding, websocket
wiring, the spec watcher, the support-file check and the `before:run` hook do
not change the fields modelled here beyond `_server`/`_automation`. -/
def openPB (p : PB) (options : OpenOptions) (resolvedCfg : Cfg)
    (serverPort : Nat) (now : Nat) (persisted : SavedState) : PB × SavedState :=
  let p0 := { p with options := some options }
  let cfg1 := (getConfigPB p0 (some options) resolvedCfg persisted).1
  -- process.chdir(projectRoot), chromeWebSecurity warnings and plugins-file
  -- scaffolding are external effects
  -- onOpen: a fresh server is constructed, plugins are initialised, CT
  -- viewport defaults injected, then server.open yields the port
  let p1 := { p0 with _server := some () }
  let cfg2a := onOpenCfg p1.projectType cfg1
  -- if (!cfg.port) { cfg.port = port; urls are recomputed (external setUrls) }
  let cfg2b := if jsTruthyNum cfg2a.port then cfg2a else { cfg2a with port := some serverPort }
  let cfg2 := { cfg2b with proxyServer := cfg2b.proxyUrl }
  let p2 := { p1 with _cfg := some cfg2 }
  -- stateToSave: lastOpened always; firstOpened only when currently absent
  let firstAbsent :=
    match cfg2.state with
    | none => true
    | some st => !(jsTruthyNum st.firstOpened)
  let stateToSave : StateChanges :=
    { lastOpened := some now
      firstOpened := if firstAbsent then some now else none }
  -- Promise.all: watchSettingsAndStartWebsockets (creates the automation),
  -- scaffolding, saveState (merges and writes back onto cfg.state)
  let persisted2 := applyChanges persisted stateToSave
  let cfg3 := { cfg2 with state := some persisted2 }
  let p3 := { p2 with _automation := some (), _cfg := some cfg3 }
  (p3, persisted2)

/-- `ProjectBase.close`: clears spec/browser, then releases the server (via
the throwing `server` getter), the watchers and (e2e only) the preprocessor,
restores the working directory, re-reads the config and optionally runs the
`after:run` hook.  Note `close` never clears `_cfg`, `_server` or
`_automation`. -/
def closePB (p : PB) (resolved : Cfg) (persisted : SavedState) :
    Except String (PB × List Eff) :=
  let p1 := { p with spec := none, browser := none }
  -- `this.server?.close()` evaluates the ensure-or-throw getter first
  match ensurePropM p1._server "open" with
  | Except.error e => Except.error e
  | Except.ok _ =>
    let releaseEffs :=
      [Eff.serverClose, Eff.watchersClose] ++
        (if p1.projectType = ProjectType.e2e then [Eff.preprocessorClose] else [])
    let effs1 := releaseEffs ++ [Eff.chdirBack]
    let got := getConfigPB p1 none resolved persisted
    let effs2 := effs1 ++ got.2
    if got.1.isTextTerminal || !got.1.experimentalInteractiveRunEvents then
      Except.ok (p1, effs2)
    else
      Except.ok (p1, effs2 ++ [Eff.afterRun])

/-- `ProjectBase.reset`: clears spec/browser and forwards the reset to the
automation and the server when they exist; watchers and config are untouched
and nothing can throw. -/
def resetPB (p : PB) : PB × List Eff :=
  let p1 := { p with spec := none, browser := none }
  (p1,
    (if p._automation.isSome then [Eff.automationReset] else []) ++
      (if p._server.isSome then [Eff.serverReset] else []))

/-- `ProjectBase.saveState`: the `this.cfg` ensure-or-throw getter runs
before anything else, so an unset config throws and nothing is written;
otherwise the changes are merged into the persisted blob and written back
onto `cfg.state`.  (The in-code `if (!this.cfg)` guard is unreachable: the
getter has already thrown.) -/
def saveStatePB (p : PB) (stateChanges : StateChanges) (persisted : SavedState) :
    Except String (PB × SavedState) :=
  match ensurePropM p._cfg "open" with
  | Except.error e => Except.error e
  | Except.ok c =>
    if p.projectRoot = "" then Except.error "Missing project root"
    else
      let st := applyChanges persisted stateChanges
      Except.ok ({ p with _cfg := some { c with state := some st } }, st)

/-- `ProjectBase.removeScaffoldedFiles`: the `this.cfg` getter throws when
the config is unset; otherwise the integration scaffold removal runs. -/
def removeScaffoldedFilesPB (p : PB) : Except String (List Eff) :=
  match ensurePropM p._cfg "open" with
  | Except.error e => Except.error e
  | Except.ok _ => Except.ok [Eff.removeIntegration]

/-! ## Plugin file watching and re-initialisation

`watchPluginsFile` registers an `onChange` handler on the plugins file; the
handler re-runs `_initPlugins` and routes a rejection of that promise into
`options.onError` via `.catch`, so the handler itself never rejects and the
watcher registration survives the failure.  Separately, the `onError`
callback that `_initPlugins` hands to the plugin host is `_onError`, which
closes the browser-automation session *before* forwarding to
`options.onError`. -/

/-- Observable events of a plugin re-initialisation cycle. -/
inductive PluginEv where
  | reInit
  | browsersClose
  | errorCb (code : Nat)
  | openRejected (code : Nat)
deriving DecidableEq, Repr

/-- `ProjectBase._onError`: `browsers.close()` then `options.onError(err)`. -/
def _onErrorEvents (code : Nat) : List PluginEv :=
  [PluginEv.browsersClose, PluginEv.errorCb code]

/-- `ProjectBase.watchPluginsFile`: whether the change handler is registered
at all (skipped without a plugins file, in run mode, or when the file does
not exist on disk). -/
def watchPluginsFileRegisters (cfg : Cfg) (isTextTerminal : Bool)
    (pluginsFileExists : Bool) : Bool :=
  cfg.pluginsFile.isSome && !isTextTerminal && pluginsFileExists

/-- One plugins-file change event: if a handler is registered it re-runs
`_initPlugins` (outcome `reInitResult`, an external collaborator) and
catches a rejection, delivering it to `options.onError`; the registration
(first component) is never removed, and the handler never rethrows (the
return type has no error case). -/
def handlePluginsChange (registered : Bool) (reInitResult : Except Nat Unit) :
    Bool × List PluginEv :=
  if registered then
    (registered,
      PluginEv.reInit ::
        (match reInitResult with
         | Except.ok _ => []
         | Except.error code => [PluginEv.errorCb code]))
  else
    (registered, [])

/-! ## Spec URL construction

`normalizeSpecUrl` joins `[browserUrl, '#/tests', escapedSpecUrl]` with `/`
and then applies `.replace(/[^:\/\/](\/{2,})/g, m => m.replace('//','/'))`:
every maximal run of two or more slashes that is preceded by a character
other than `:` or `/` loses exactly one slash (the regex consumes the whole
greedy run and the replacer collapses only its first `//`).  The embedding
below implements exactly that rule: a slash is dropped iff its predecessor
in the original string is neither `:` nor `/` and its successor is `/`. -/

/-- One scan step of the slash-collapsing replace; `prev` is the character
preceding `l` in the original string. -/
def collapseGo (prev : Char) : List Char → List Char
  | [] => []
  | c :: rest =>
    if c = '/' ∧ rest.head? = some '/' ∧ prev ≠ ':' ∧ prev ≠ '/' then
      collapseGo c rest
    else
      c :: collapseGo c rest

/-- The full `.replace(multipleForwardSlashesRe, replacer)` pass: the first
character can never start inside a match (the regex needs a preceding
character), so it is always kept. -/
def collapseSlashes : List Char → List Char
  | [] => []
  | c :: rest => c :: collapseGo c rest

/-- Whether the scan starting after `prev` would drop some slash of `l`. -/
def hasDel (prev : Char) : List Char → Bool
  | [] => false
  | c :: rest =>
    (decide (c = '/' ∧ rest.head? = some '/' ∧ prev ≠ ':' ∧ prev ≠ '/')) || hasDel c rest

/-- String-level wrapper for the slash-collapsing replace. -/
def collapseStr (s : String) : String :=
  String.mk (collapseSlashes s.data)

/-- Characters left intact in a URL fragment. -/
def fragmentSafe (c : Char) : Bool :=
  c.isAlphanum || c == '/' || c == '_' || c == '-' || c == '.' || c == '~'

/-- An uppercase hex digit. -/
def hexDigit (n : Nat) : Char :=
  if n < 10 then Char.ofNat (48 + n) else Char.ofNat (55 + n)

/-- Modelled from the spec: `escapeFilenameInUrl` of `util/escape_filename`
is not under src/; the spec says it percent-escapes the characters unsafe in
a URL fragment, leaving slashes and unreserved characters unchanged. -/
def escapeFilenameInUrl (s : String) : String :=
  String.mk ((s.data.map (fun c =>
    if fragmentSafe c then [c]
    else ['%', hexDigit (c.toNat / 16 % 16), hexDigit (c.toNat % 16)])).flatten)

/-- `ProjectBase.normalizeSpecUrl`: `[browserUrl, '#/tests', escaped].join('/')`
(written out as the appends it denotes) followed by the slash collapse. -/
def normalizeSpecUrl (browserUrl specUrl : String) : String :=
  collapseStr (browserUrl ++ "/" ++ "#/tests" ++ "/" ++ escapeFilenameInUrl specUrl)

/-- Modelled from the spec: Node's `path.resolve` restricted to POSIX paths —
an absolute spec path is kept, a relative one is joined to the root. -/
def pathResolve (root p : String) : String :=
  if p.startsWith "/" then p else root ++ "/" ++ p

/-- Modelled from the spec: Node's `path.relative` restricted to the case the
spec exercises, a target inside the base folder. -/
def pathRelative (base target : String) : String :=
  if target.startsWith (base ++ "/") then target.drop (base ++ "/").length
  else if target = base then "" else target

/-- `ProjectBase.getPrefixedPathToSpec`: strip the folder of the given spec
type, prefix with `/<type>/` and normalise backslashes to forward slashes. -/
def getPrefixedPathToSpec (cfg : Cfg) (pathToSpec : String) (specType : String) : String :=
  let folderToUse := if specType = "integration" then cfg.integrationFolder else cfg.componentFolder
  "/" ++ String.mk ((specType ++ "/" ++
    pathRelative folderToUse (pathResolve cfg.projectRoot pathToSpec)).data.map
      (fun c => if c = '\\' then '/' else c))

/-- `ProjectBase.getSpecUrl`: an absent path or the `__all` sentinel produce
the aggregate-run URL; otherwise the prefixed path is normalised.  The
`await this.getConfig()` at the top reads the active snapshot, passed here
as `cfg`. -/
def getSpecUrl (cfg : Cfg) (absoluteSpecPath : Option String) (specType : String) : String :=
  match absoluteSpecPath with
  | none => normalizeSpecUrl cfg.browserUrl "/__all"
  | some p =>
    if p == "" || p == "__all" then
      normalizeSpecUrl cfg.browserUrl "/__all"
    else
      normalizeSpecUrl cfg.browserUrl (getPrefixedPathToSpec cfg p specType)

/-- The character tail appended by the `__all` join, after the browser URL:
`"/" ++ "#/tests" ++ "/" ++ "/__all"`. -/
def sfxTail : List Char :=
  ['#', '/', 't', 'e', 's', 't', 's', '/', '/', '_', '_', 'a', 'l', 'l']

/-- The joined `__all` suffix (before collapsing). -/
def allSpecsSuffix : List Char := '/' :: sfxTail

/-- The collapsed `__all` suffix. -/
def allSpecsTarget : List Char :=
  ['/', '#', '/', 't', 'e', 's', 't', 's', '/', '_', '_', 'a', 'l', 'l']

/-- Whether a browser URL passes through the collapsing replace unchanged
when `"/#"` follows it: no internal collapsible run and no trailing slash
that would merge with the join slash. -/
def noSelfCollapse (b : String) : Bool :=
  match b.data with
  | [] => true
  | c :: rest => !(hasDel c (rest ++ ['/', '#']))

/-! ## Derived operation: one full open() on a fresh instance

Used to state the persisted-timestamp property: the store content after
opening a fresh instance of the project at time `now` against the persisted
blob `persisted`. -/

/-- The persisted state after one `open()` of a freshly constructed e2e
project instance. -/
def openOnce (root : String) (options : OpenOptions) (resolved : Cfg)
    (port now : Nat) (persisted : SavedState) : SavedState :=
  (openPB (freshPB root ProjectType.e2e) options resolved port now persisted).2

/-! ## Concrete sample data used by witnesses and counterexamples -/

/-- A concrete resolved config snapshot (run mode, no pinned port). -/
def sampleCfg : Cfg :=
  { browserUrl := "http://localhost:8080"
    proxyUrl := "http://localhost:8080"
    proxyServer := ""
    port := none
    state := none
    isTextTerminal := true
    experimentalInteractiveRunEvents := false
    rawJson := { viewportHeight := none, viewportWidth := none }
    viewportHeight := none
    viewportWidth := none
    pluginsFile := some "/p/cypress/plugins/index.js"
    supportFile := none
    integrationFolder := "/p/cypress/integration"
    componentFolder := "/p/cypress/component"
    projectRoot := "/p" }

/-- A config whose browser URL carries Cypress's usual trailing-slash client
route. -/
def slashCfg : Cfg :=
  { sampleCfg with browserUrl := "http://localhost:8080/__/" }

/-- A concrete instance that completed `open()`. -/
def openedSample : PB :=
  (openPB (freshPB "/p" ProjectType.e2e) {} sampleCfg 8080 5 emptyState).1

/-- The instance state `close()` leaves behind for `openedSample`. -/
def closedSample : PB :=
  { openedSample with spec := none, browser := none }

/-- A concrete remote project record. -/
def remoteW : JsObj := [("id", "p1"), ("orgName", "Acme")]

/-- A concrete remote listing. -/
def projListW : List JsObj := [remoteW]

/-- A concrete remote API: `p1` exists, `p404` is missing, `p403` is
forbidden, anything else fails with HTTP 500. -/
def apiW : String → Except ApiError JsObj := fun i =>
  if i == "p1" then Except.ok remoteW
  else if i == "p404" then Except.error { statusCode := some 404 }
  else if i == "p403" then Except.error { statusCode := some 403 }
  else Except.error { statusCode := some 500 }

/-- A client project without an id. -/
def cNoIdW : JsObj := [("path", "/a")]

/-- A client project whose id is present in the remote listing. -/
def cFoundW : JsObj := [("id", "p1"), ("path", "/b")]

/-- A client project whose individual lookup 404s. -/
def c404W : JsObj := [("id", "p404"), ("path", "/c")]

/-- A client project whose individual lookup 403s. -/
def c403W : JsObj := [("id", "p403"), ("path", "/d")]

/-- A client project whose individual lookup fails with HTTP 500. -/
def c500W : JsObj := [("id", "p500"), ("path", "/e")]

/-! ## Helper lemmas about object assignment -/

/-- Overwriting an existing key makes the key read back the new value. -/
theorem objGet_map_overwrite (o : JsObj) (k v : String)
    (h : (o.find? (fun kv => kv.1 == k)).isSome = true) :
    objGet (o.map (fun kv => if kv.1 == k then (k, v) else kv)) k = some v := by
  induction o with
  | nil => simp [List.find?] at h
  | cons kv rest ih =>
    by_cases hk : (kv.1 == k) = true
    · simp [objGet, List.find?, hk]
    · simp only [List.find?_cons, hk, Bool.false_eq_true, if_false] at h
      simp only [List.map_cons, objGet, List.find?_cons, hk, Bool.false_eq_true, if_false] at ih ⊢
      exact ih h

/-- Appending a fresh key makes the key read back the appended value. -/
theorem objGet_append_fresh (o : JsObj) (k v : String)
    (h : o.find? (fun kv => kv.1 == k) = none) :
    objGet (o ++ [(k, v)]) k = some v := by
  induction o with
  | nil => simp [objGet, List.find?]
  | cons kv rest ih =>
    by_cases hk : (kv.1 == k) = true
    · simp [List.find?_cons, hk] at h
    · simp only [List.find?_cons, hk, Bool.false_eq_true, if_false] at h
      simp only [List.cons_append, objGet, List.find?_cons, hk, Bool.false_eq_true, if_false] at ih ⊢
      exact ih h

/-- `objSet` establishes the key/value binding it was given. -/
theorem objGet_objSet_self (o : JsObj) (k v : String) :
    objGet (objSet o k v) k = some v := by
  unfold objSet
  by_cases h : (o.find? (fun kv => kv.1 == k)).isSome = true
  · rw [if_pos h]
    exact objGet_map_overwrite o k v h
  · rw [if_neg h]
    have hn : o.find? (fun kv => kv.1 == k) = none := by
      cases hf : o.find? (fun kv => kv.1 == k) <;> simp [hf] at h ⊢
    exact objGet_append_fresh o k v hn

/-- `_mergeState` marks the result with the given state. -/
theorem objGet_mergeState_state (c : JsObj) (s : String) :
    objGet (_mergeState c s) "state" = some s := by
  show objGet (objAssign (objSet (objAssign [] c) "state" s) []) "state" = some s
  exact objGet_objSet_self _ _ _

/-- `_mergeDetails` marks the result VALID. -/
theorem objGet_mergeDetails_state (c p : JsObj) :
    objGet (_mergeDetails c p) "state" = some "VALID" := by
  show objGet (objAssign (objSet (objAssign (objAssign [] c) p) "state" "VALID") []) "state" =
    some "VALID"
  exact objGet_objSet_self _ _ _

/-! ## Helper lemmas about the slash-collapsing replace -/

/-- Splitting a no-deletion fact over a cons. -/
theorem hasDel_cons_false {prev c : Char} {rest : List Char}
    (h : hasDel prev (c :: rest) = false) :
    (decide (c = '/' ∧ rest.head? = some '/' ∧ prev ≠ ':' ∧ prev ≠ '/')) = false ∧
      hasDel c rest = false := by
  simpa [hasDel, Bool.or_eq_false_iff] using h

/-- The head of a list with the `__all` suffix appended agrees with the head
of the same list with just the boundary `"/#"` appended. -/
theorem head?_append_sfx (u : List Char) :
    (u ++ allSpecsSuffix).head? = (u ++ ['/', '#']).head? := by
  cases u <;> rfl

/-- The collapse of the joined `__all` suffix itself, for any preceding
character: the boundary slash is followed by `#`, so it is never dropped. -/
theorem collapseGo_allSpecs (prev : Char) :
    collapseGo prev allSpecsSuffix = allSpecsTarget := by
  have h : ¬('/' = '/' ∧ sfxTail.head? = some '/' ∧ prev ≠ ':' ∧ prev ≠ '/') := by
    intro hh
    exact absurd hh.2.1 (by decide)
  show collapseGo prev ('/' :: sfxTail) = allSpecsTarget
  rw [collapseGo, if_neg h]
  decide

/-- A prefix free of deletable slashes (also at its boundary with `"/#"`)
passes through the collapse unchanged, and the joined suffix collapses to
its target. -/
theorem collapseGo_append (u : List Char) :
    ∀ prev : Char, hasDel prev (u ++ ['/', '#']) = false →
      collapseGo prev (u ++ allSpecsSuffix) = u ++ allSpecsTarget := by
  induction u with
  | nil =>
    intro prev _
    simpa using collapseGo_allSpecs prev
  | cons c u ih =>
    intro prev h
    rw [List.cons_append] at h
    have hparts := hasDel_cons_false h
    have hnp : ¬(c = '/' ∧ (u ++ allSpecsSuffix).head? = some '/' ∧ prev ≠ ':' ∧ prev ≠ '/') := by
      have h0 := of_decide_eq_false hparts.1
      intro hp
      have hb : (u ++ ['/', '#']).head? = some '/' := by
        rw [← head?_append_sfx]
        exact hp.2.1
      exact h0 ⟨hp.1, hb, hp.2.2⟩
    simp only [List.cons_append]
    rw [collapseGo, if_neg hnp]
    exact congrArg (fun l => c :: l) (ih c hparts.2)

/-- The `__all` URL of a browser URL that passes through the collapse
unchanged is exactly the browser URL followed by `"/#/tests/__all"`. -/
theorem normalizeSpecUrl_allSpecs (b : String) (h : noSelfCollapse b = true) :
    normalizeSpecUrl b "/__all" = b ++ "/#/tests/__all" := by
  have hesc : escapeFilenameInUrl "/__all" = "/__all" := by decide
  have hdata : (b ++ "/" ++ "#/tests" ++ "/" ++ "/__all").data = b.data ++ allSpecsSuffix := by
    simp only [String.data_append, List.append_assoc]
    congr 1
  have hcoll : collapseSlashes (b.data ++ allSpecsSuffix) = b.data ++ allSpecsTarget := by
    cases hb : b.data with
    | nil => simpa using (by decide : collapseSlashes allSpecsSuffix = allSpecsTarget)
    | cons c rest =>
      have h2 : hasDel c (rest ++ ['/', '#']) = false := by
        unfold noSelfCollapse at h
        rw [hb] at h
        simpa using h
      simp only [List.cons_append, collapseSlashes]
      rw [collapseGo_append rest c h2]
  unfold normalizeSpecUrl collapseStr
  rw [hesc, hdata, hcoll]
  have htgt : allSpecsTarget = ("/#/tests/__all" : String).data := by decide
  rw [htgt]
  rfl

/-! ## Claim theorems -/

/-- C1: for every client project handed to getProjectStatuses (and to
getProjectStatus): a project with no id resolves to state VALID with no
per-project remote lookup; one whose id is found in the remote listing is
merged with the remote record and marked VALID; one whose id is not found
triggers an individual lookup whose 404 failure yields INVALID, whose 403
failure yields UNAUTHORIZED, and whose other failures propagate unmodified;
merged results carry state VALID / the mapped state. -/
theorem C1_project_status_reconciliation
    (projects : List JsObj) (api : String → Except ApiError JsObj) (c : JsObj) :
    (jsTruthyStr (objGet c "id") = false →
      statusOne (keyById projects) api c = (Except.ok (_mergeState c "VALID"), []) ∧
      getProjectStatus api c = (Except.ok (_mergeState c "VALID"), [])) ∧
    (∀ i proj, objGet c "id" = some i → jsTruthyStr (objGet c "id") = true →
      keyById projects i = some proj →
      statusOne (keyById projects) api c = (Except.ok (_mergeDetails c proj), [])) ∧
    (∀ i, objGet c "id" = some i → jsTruthyStr (objGet c "id") = true →
      keyById projects i = none →
      statusOne (keyById projects) api c = _getProject api c ∧
      getProjectStatus api c = _getProject api c) ∧
    (∀ i proj, objGet c "id" = some i → api i = Except.ok proj →
      _getProject api c = (Except.ok (_mergeDetails c proj), [i])) ∧
    (∀ i e, objGet c "id" = some i → api i = Except.error e → e.statusCode = some 404 →
      _getProject api c = (Except.ok (_mergeState c "INVALID"), [i])) ∧
    (∀ i e, objGet c "id" = some i → api i = Except.error e → e.statusCode = some 403 →
      _getProject api c = (Except.ok (_mergeState c "UNAUTHORIZED"), [i])) ∧
    (∀ i e, objGet c "id" = some i → api i = Except.error e →
      e.statusCode ≠ some 404 → e.statusCode ≠ some 403 →
      _getProject api c = (Except.error e, [i])) ∧
    (∀ cps, getProjectStatuses projects api cps = cps.map (statusOne (keyById projects) api)) ∧
    (∀ s, objGet (_mergeState c s) "state" = some s) ∧
    (∀ proj, objGet (_mergeDetails c proj) "state" = some "VALID") := by
  refine ⟨?_, ?_, ?_, ?_, ?_, ?_, ?_, ?_, ?_, ?_⟩
  · intro h
    constructor <;> simp [statusOne, getProjectStatus, h]
  · intro i proj h1 h2 h3
    rw [h1] at h2
    simp [statusOne, h1, h2, h3]
  · intro i h1 h2 h3
    constructor
    · rw [h1] at h2
      simp [statusOne, h1, h2, h3]
    · simp [getProjectStatus, h2]
  · intro i proj h1 h2
    simp [_getProject, h1, h2]
  · intro i e h1 h2 h3
    simp [_getProject, h1, h2, h3]
  · intro i e h1 h2 h3
    simp [_getProject, h1, h2, h3]
  · intro i e h1 h2 h3 h4
    simp only [_getProject, h1, Option.getD_some, h2]
  · intro cps
    rfl
  · intro s
    exact objGet_mergeState_state c s
  · intro proj
    exact objGet_mergeDetails_state c proj

/-- C1 witness: the reconciliation evaluated on a concrete listing and a
concrete remote API exercising every branch. -/
theorem C1_project_status_reconciliation_witness :
    jsTruthyStr (objGet cNoIdW "id") = false ∧
    statusOne (keyById projListW) apiW cNoIdW = (Except.ok (_mergeState cNoIdW "VALID"), []) ∧
    statusOne (keyById projListW) apiW cFoundW = (Except.ok (_mergeDetails cFoundW remoteW), []) ∧
    _getProject apiW c404W = (Except.ok (_mergeState c404W "INVALID"), ["p404"]) ∧
    _getProject apiW c403W = (Except.ok (_mergeState c403W "UNAUTHORIZED"), ["p403"]) ∧
    _getProject apiW c500W = (Except.error { statusCode := some 500 }, ["p500"]) :=
  ⟨by decide,
   ((C1_project_status_reconciliation projListW apiW cNoIdW).1 (by decide)).1,
   (C1_project_status_reconciliation projListW apiW cFoundW).2.1 "p1" remoteW
     (by decide) (by decide) (by decide),
   (C1_project_status_reconciliation projListW apiW c404W).2.2.2.2.1 "p404"
     { statusCode := some 404 } (by decide) rfl rfl,
   (C1_project_status_reconciliation projListW apiW c403W).2.2.2.2.2.1 "p403"
     { statusCode := some 403 } (by decide) rfl rfl,
   (C1_project_status_reconciliation projListW apiW c500W).2.2.2.2.2.2.1 "p500"
     { statusCode := some 500 } (by decide) rfl (by decide) (by decide)⟩

/-- C2: the claim says close() on a never-opened instance completes without
throwing and releases nothing.  On the code, `this.server?.close()` first
evaluates the `server` ensure-or-throw getter, which throws before any
release is attempted, so close() rejects: the theorem evaluates close at the
failing input (a freshly constructed, never-opened instance) and shows the
error result (the error return carries no release effects). -/
theorem C2_close_never_opened_throws :
    closePB (freshPB "/p" ProjectType.e2e) sampleCfg emptyState =
      Except.error "open() must first be called" := rfl

/-- C3 counterexample: after a successful open() followed by a successful
close(), the stored config is still set — close() never clears `_cfg`, so
the claim that `currentConfig` is undefined again after a successful close()
is false on the code. -/
theorem C3_close_retains_config_counterexample :
    (closePB openedSample sampleCfg emptyState).toOption.isSome = true ∧
    (closePB openedSample sampleCfg emptyState).toOption.map (fun r => r.1._cfg.isSome) =
      some true := by
  constructor <;> rfl

/-- C3 amended: the stored config is undefined before the first successful
open() and set once open() completes, but a successful close() leaves it
untouched — it still holds the last opened snapshot. -/
theorem C3_cfg_lifecycle_amended :
    (∀ (root : String) (t : ProjectType), (freshPB root t)._cfg = none) ∧
    (∀ (p : PB) (o : OpenOptions) (r : Cfg) (port now : Nat) (st : SavedState),
      ((openPB p o r port now st).1._cfg).isSome = true) ∧
    (∀ (p : PB) (r : Cfg) (st : SavedState) (p2 : PB) (effs : List Eff),
      closePB p r st = Except.ok (p2, effs) → p2._cfg = p._cfg) := by
  refine ⟨fun _ _ => rfl, fun p o r port now st => rfl, fun p r st p2 effs h => ?_⟩
  unfold closePB at h
  cases hs : p._server with
  | none =>
    simp [ensurePropM, hs] at h
  | some u =>
    simp only [ensurePropM, hs] at h
    split at h <;>
      (simp only [Except.ok.injEq, Prod.mk.injEq] at h
       obtain ⟨h1, -⟩ := h
       subst h1
       rfl)

/-- C3 witness: the amended lifecycle evaluated on a concrete instance that
was opened and then closed. -/
theorem C3_cfg_lifecycle_witness :
    (freshPB "/p" ProjectType.e2e)._cfg = none ∧
    openedSample._cfg.isSome = true ∧
    closePB openedSample sampleCfg emptyState =
      Except.ok (closedSample,
        [Eff.serverClose, Eff.watchersClose, Eff.preprocessorClose, Eff.chdirBack]) ∧
    closedSample._cfg = openedSample._cfg :=
  ⟨C3_cfg_lifecycle_amended.1 "/p" ProjectType.e2e,
   C3_cfg_lifecycle_amended.2.1 (freshPB "/p" ProjectType.e2e) {} sampleCfg 8080 5 emptyState,
   by rfl,
   C3_cfg_lifecycle_amended.2.2 openedSample sampleCfg emptyState closedSample
     [Eff.serverClose, Eff.watchersClose, Eff.preprocessorClose, Eff.chdirBack] (by rfl)⟩

/-- C4 counterexample: a failing re-initialisation cycle whose failure is the
rejection of the `_initPlugins` promise is delivered to onError by the
`.catch` in the watch handler without any `browsers.close()` — so the claim
that the browser-automation session is always closed before delivery is
false on the code. -/
theorem C4_reinit_no_browser_close_counterexample :
    (handlePluginsChange true (Except.error 7)).2 = [PluginEv.reInit, PluginEv.errorCb 7] ∧
    PluginEv.browsersClose ∉ (handlePluginsChange true (Except.error 7)).2 := by
  decide

/-- C4 amended: a failure of a watch-triggered plugin re-initialisation cycle
is never surfaced as a rejection (the handler total, with no error case,
emits no open-rejection event and delivers the failure exclusively through
onError), the watcher registration survives so a subsequent change event
still triggers another re-init cycle; the browser-automation session is
closed before delivery only on the plugin host's asynchronous error channel
(`_onError`), not on the rejection path of the re-init promise itself. -/
theorem C4_plugin_reinit_error_routing (code : Nat) (next : Except Nat Unit) :
    handlePluginsChange true (Except.error code) =
      (true, [PluginEv.reInit, PluginEv.errorCb code]) ∧
    (∀ n, PluginEv.openRejected n ∉ (handlePluginsChange true (Except.error code)).2) ∧
    PluginEv.reInit ∈
      (handlePluginsChange (handlePluginsChange true (Except.error code)).1 next).2 ∧
    _onErrorEvents code = [PluginEv.browsersClose, PluginEv.errorCb code] := by
  refine ⟨rfl, ?_, ?_, rfl⟩
  · intro n
    simp [handlePluginsChange]
  · cases next <;> simp [handlePluginsChange]

/-- C5: opening a project with no prior persisted state leaves
firstOpened = lastOpened = T for the timestamp T captured during that open;
a later open at T2 > T updates lastOpened to T2 while firstOpened stays T. -/
theorem C5_open_timestamps (root : String) (options : OpenOptions) (resolved : Cfg)
    (port T T2 : Nat) (hT : 0 < T) (hTT : T < T2) :
    (openOnce root options resolved port T emptyState).firstOpened = some T ∧
    (openOnce root options resolved port T emptyState).lastOpened = some T ∧
    (openOnce root options resolved port T2
      (openOnce root options resolved port T emptyState)).firstOpened = some T ∧
    (openOnce root options resolved port T2
      (openOnce root options resolved port T emptyState)).lastOpened = some T2 := by
  have hT0 : T ≠ 0 := Nat.pos_iff_ne_zero.mp hT
  have h1 : openOnce root options resolved port T emptyState =
      { firstOpened := some T, lastOpened := some T, showedNewProjectBanner := none } := by
    cases hport : resolved.port with
    | none =>
      simp [openOnce, openPB, getConfigPB, freshPB, onOpenCfg, applyChanges, emptyState,
        jsTruthyNum, hport]
    | some n =>
      by_cases hn : n = 0 <;>
        simp [openOnce, openPB, getConfigPB, freshPB, onOpenCfg, applyChanges, emptyState,
          jsTruthyNum, hport, hn]
  have h2 : openOnce root options resolved port T2
      { firstOpened := some T, lastOpened := some T, showedNewProjectBanner := none } =
      { firstOpened := some T, lastOpened := some T2, showedNewProjectBanner := none } := by
    cases hport : resolved.port with
    | none =>
      simp [openOnce, openPB, getConfigPB, freshPB, onOpenCfg, applyChanges,
        jsTruthyNum, hport, hT0]
    | some n =>
      by_cases hn : n = 0 <;>
        simp [openOnce, openPB, getConfigPB, freshPB, onOpenCfg, applyChanges,
          jsTruthyNum, hport, hn, hT0]
  rw [h1, h2]
  exact ⟨rfl, rfl, rfl, rfl⟩

/-- C5 witness: the timestamp behaviour evaluated at T = 1, T2 = 2 on a
concrete config. -/
theorem C5_open_timestamps_witness :
    0 < 1 ∧ 1 < 2 ∧
    (openOnce "/p" {} sampleCfg 8080 1 emptyState).firstOpened = some 1 ∧
    (openOnce "/p" {} sampleCfg 8080 1 emptyState).lastOpened = some 1 ∧
    (openOnce "/p" {} sampleCfg 8080 2
      (openOnce "/p" {} sampleCfg 8080 1 emptyState)).firstOpened = some 1 ∧
    (openOnce "/p" {} sampleCfg 8080 2
      (openOnce "/p" {} sampleCfg 8080 1 emptyState)).lastOpened = some 2 :=
  ⟨by decide, by decide,
   (C5_open_timestamps "/p" {} sampleCfg 8080 1 2 (by decide) (by decide)).1,
   (C5_open_timestamps "/p" {} sampleCfg 8080 1 2 (by decide) (by decide)).2.1,
   (C5_open_timestamps "/p" {} sampleCfg 8080 1 2 (by decide) (by decide)).2.2.1,
   (C5_open_timestamps "/p" {} sampleCfg 8080 1 2 (by decide) (by decide)).2.2.2⟩

/-- C6: reset() is idempotent while open — any number of calls leaves
spec = null and browser = null, repeating it does not change the resulting
instance state, and it is a total operation (its type has no error case), in
particular safe with no automation session present. -/
theorem C6_reset_idempotent (p : PB) (n : Nat) :
    ((fun s => (resetPB s).1)^[n + 1] p).spec = none ∧
    ((fun s => (resetPB s).1)^[n + 1] p).browser = none ∧
    (resetPB (resetPB p).1).1 = (resetPB p).1 := by
  refine ⟨?_, ?_, ?_⟩
  · rw [Function.iterate_succ_apply']
    simp [resetPB]
  · rw [Function.iterate_succ_apply']
    simp [resetPB]
  · simp [resetPB]

/-- C7 counterexample: for the browser URL Cypress actually derives (client
route with a trailing slash), the collapse merges the trailing slash with
the join slash, so the result is not literally browserUrl ++
"/#/tests/__all". -/
theorem C7_trailing_slash_counterexample :
    getSpecUrl slashCfg none "integration" = "http://localhost:8080/__/#/tests/__all" ∧
    getSpecUrl slashCfg (some "__all") "integration" = "http://localhost:8080/__/#/tests/__all" ∧
    slashCfg.browserUrl ++ "/#/tests/__all" = "http://localhost:8080/__//#/tests/__all" ∧
    getSpecUrl slashCfg none "integration" ≠ slashCfg.browserUrl ++ "/#/tests/__all" := by
  refine ⟨by decide, by decide, by decide, by decide⟩

/-- C7 amended: getSpecUrl(undefined, 'integration') and
getSpecUrl('__all', 'integration') return the same aggregate-run URL,
normalizeSpecUrl(browserUrl, '/__all'); for a browser URL that passes the
slash collapse unchanged (in particular one with no trailing slash and no
non-protocol doubled slash) this is exactly browserUrl ++ "/#/tests/__all",
while a trailing slash merges with the join slash. -/
theorem C7_all_specs_url :
    (∀ (cfg : Cfg) (t : String),
      getSpecUrl cfg none t = getSpecUrl cfg (some "__all") t ∧
      getSpecUrl cfg none t = normalizeSpecUrl cfg.browserUrl "/__all") ∧
    (∀ b : String, noSelfCollapse b = true →
      normalizeSpecUrl b "/__all" = b ++ "/#/tests/__all") := by
  constructor
  · intro cfg t
    exact ⟨rfl, rfl⟩
  · exact normalizeSpecUrl_allSpecs

/-- C7 witness: the amended property evaluated on a slash-free browser
URL. -/
theorem C7_all_specs_url_witness :
    noSelfCollapse "http://localhost:8080" = true ∧
    normalizeSpecUrl "http://localhost:8080" "/__all" = "http://localhost:8080/#/tests/__all" ∧
    getSpecUrl sampleCfg none "integration" = getSpecUrl sampleCfg (some "__all") "integration" :=
  ⟨by decide,
   C7_all_specs_url.2 "http://localhost:8080" (by decide),
   (C7_all_specs_url.1 sampleCfg "integration").1⟩

/-- C8: a component-testing-type config with no explicit viewport dimensions
resolves (via injectCtSpecificConfig inside onOpen) to
viewportHeight = viewportWidth = 500. -/
theorem C8_ct_viewport_defaults (cfg : Cfg)
    (h1 : cfg.rawJson.viewportHeight = none) (h2 : cfg.rawJson.viewportWidth = none) :
    (onOpenCfg ProjectType.ct cfg).viewportHeight = some 500 ∧
    (onOpenCfg ProjectType.ct cfg).viewportWidth = some 500 := by
  simp [onOpenCfg, injectCtSpecificConfig, h1, h2]

/-- C8 witness: the CT viewport defaults evaluated on a concrete config with
no raw viewport values. -/
theorem C8_ct_viewport_defaults_witness :
    sampleCfg.rawJson.viewportHeight = none ∧
    sampleCfg.rawJson.viewportWidth = none ∧
    (onOpenCfg ProjectType.ct sampleCfg).viewportHeight = some 500 ∧
    (onOpenCfg ProjectType.ct sampleCfg).viewportWidth = some 500 :=
  ⟨rfl, rfl,
   (C8_ct_viewport_defaults sampleCfg rfl rfl).1,
   (C8_ct_viewport_defaults sampleCfg rfl rfl).2⟩

/-- C9: once the config snapshot is stored (as open() does), every
getConfig call, for any options argument, returns that same snapshot and
performs no new resolution, scaffold check or saved-state load. -/
theorem C9_getConfig_returns_snapshot (p : PB) (options : Option OpenOptions)
    (resolved : Cfg) (persisted : SavedState) (c : Cfg) (h : p._cfg = some c) :
    getConfigPB p options resolved persisted = (c, []) := by
  simp [getConfigPB, h]

/-- C9 witness: getConfig evaluated on a concrete opened instance. -/
theorem C9_getConfig_returns_snapshot_witness :
    openedSample._cfg = some (openedSample._cfg.getD sampleCfg) ∧
    getConfigPB openedSample none sampleCfg emptyState =
      (openedSample._cfg.getD sampleCfg, []) :=
  ⟨rfl, C9_getConfig_returns_snapshot openedSample none sampleCfg emptyState _ rfl⟩

/-- C10: saveState on an instance whose config is not yet set throws (the
`cfg` ensure-or-throw getter fires before anything is written), and the same
precondition failure applies to removeScaffoldedFiles. -/
theorem C10_saveState_requires_config (p : PB) (changes : StateChanges)
    (persisted : SavedState) (h : p._cfg = none) :
    saveStatePB p changes persisted = Except.error "open() must first be called" ∧
    removeScaffoldedFilesPB p = Except.error "open() must first be called" := by
  unfold saveStatePB removeScaffoldedFilesPB ensurePropM
  rw [h]
  exact ⟨rfl, rfl⟩

/-- C10 witness: both operations evaluated on a fresh, never-opened
instance. -/
theorem C10_saveState_requires_config_witness :
    (freshPB "/p" ProjectType.e2e)._cfg = none ∧
    saveStatePB (freshPB "/p" ProjectType.e2e) {} emptyState =
      Except.error "open() must first be called" ∧
    removeScaffoldedFilesPB (freshPB "/p" ProjectType.e2e) =
      Except.error "open() must first be called" :=
  ⟨rfl,
   (C10_saveState_requires_config (freshPB "/p" ProjectType.e2e) {} emptyState rfl).1,
   (C10_saveState_requires_config (freshPB "/p" ProjectType.e2e) {} emptyState rfl).2⟩
